import Mathlib

/-!
Shallow embedding of the stablecoin-v2 accounting core
(src/stablecoin-v2/src/actors/keepers.rs and
src/stablecoin-v2/src/actors/stable_seekers.rs).

Machine integers of the source are `BigUint` (arbitrary-precision,
non-negative); they are embedded as `Nat`.  A `BigUint` subtraction whose
result would be negative, and a `BigUint` division by zero, abort the whole
transaction in the source VM; they are embedded as checked operations
returning `Except`.  Every endpoint is embedded as a function
`State → Except Err Unit × State` where the returned state reflects exactly
the storage writes performed before the abort point (no VM-level rollback is
assumed), so that the all-or-nothing behaviour of a failing endpoint is a
theorem about the code structure rather than a modelling artefact.
-/

namespace Stablecoin

/-- Token identifiers such as collateral ids; embedded as naturals. -/
abbrev TokenId := Nat

/-- Failure reasons of the endpoints, one per `require!` message or abort
site of the source, plus the two arithmetic aborts of `BigUint`. -/
inductive Err where
  | collateralNotWhitelisted
  | priceUnavailable
  | insufficientReserves
  | belowMinAmount
  | insufficientFunds
  | tooManyStablecoins
  | wrongPaymentToken
  | positionLiquidated
  | positionClosed
  | thresholdNotReached
  | positionStillHealthy
  | bigUintUnderflow
  | divisionByZero
  deriving DecidableEq, Repr

/-- Per-collateral pool record (spec section 3). -/
structure Pool where
  collateral_amount : Nat
  stablecoin_amount : Nat
  collateral_reserves : Nat
  total_covered_value_in_stablecoin : Nat
  deriving DecidableEq, Repr

/-- Hedging position record (spec section 3); a force-closed position keeps
its record with `withdraw_amount_after_force_close` set, a liquidated
position's record is deleted from the map. -/
structure HedgingPosition where
  collateral_id : TokenId
  deposit_amount : Nat
  covered_amount : Nat
  oracle_value_at_deposit_time : Nat
  withdraw_amount_after_force_close : Option Nat
  deriving DecidableEq, Repr

/-- Fee configuration snapshot written by `update_fees_percentage` and read
by the swap engine. -/
structure CurrentFeeConfiguration where
  hedging_ratio : Nat
  mint_fee_percentage : Nat
  burn_fee_percentage : Nat
  deriving DecidableEq, Repr

/-- Modelled from the spec: the protocol-wide fixed-point scale constant
`math::ONE` (the math module is not among the sources); spec section 3
fixes it as the scale `S`, for example ten to the eighteenth. -/
def ONE : Nat := 1000000000000000000

/-- Checked `BigUint` subtraction: aborts when the result would be
negative, as the source VM does. -/
def bsub (a b : Nat) : Except Err Nat :=
  if b ≤ a then .ok (a - b) else .error .bigUintUnderflow

/-- Checked `BigUint` division: aborts on a zero divisor, as the source VM
does. -/
def bdiv (a b : Nat) : Except Err Nat :=
  if b = 0 then .error .divisionByZero else .ok (a / b)

/-- Modelled from the spec: `multiply(a, b, precision)` of the missing math
module, truncating fixed-point multiply scaled by the collateral precision
(spec section 4.1). -/
def multiply (a b precision : Nat) : Except Err Nat :=
  bdiv (a * b) precision

/-- Modelled from the spec: `divide(a, b, precision)` of the missing math
module, truncating fixed-point divide scaled by the collateral precision
(spec section 4.1). -/
def divide (a b precision : Nat) : Except Err Nat :=
  bdiv (a * precision) b

/-- Modelled from the spec: `ratio(a, b)` of the missing math module,
fixed-point quotient `a · S / b` (spec sections 4.1 and 8). -/
def calculate_ratio (a b : Nat) : Except Err Nat :=
  bdiv (a * ONE) b

/-- Modelled from the spec: `percentage_of(pct, amount)` of the missing
math module, truncating fixed-point fraction `pct · amount / S`
(spec section 4.1); the divisor is the nonzero constant `S`, so this
operation is total. -/
def calculate_percentage_of (pct amount : Nat) : Nat :=
  pct * amount / ONE

/-- Pointwise update of a keyed storage map at one key. -/
def upd {α : Type} (m : TokenId → α) (k : TokenId) (v : α) : TokenId → α :=
  fun j => if j = k then v else m j

/-- Whole contract storage touched by the embedded endpoints, plus an event
ledger (`minted_to_caller`, `burned_stablecoin`, `collateral_sent_to_caller`)
recording the Token Ledger instructions issued. -/
structure State where
  whitelist : TokenId → Bool
  price : TokenId → Option Nat
  precision : TokenId → Nat
  pools : TokenId → Pool
  current_fee_configuration : TokenId → CurrentFeeConfiguration
  accumulated_tx_fees : TokenId → Nat
  liq_provider_fee_reward_percentage : TokenId → Nat
  liq_sft_nonce_for_collateral : TokenId → Nat
  collateral_amount_for_liq_token : Nat → Nat
  hedging_position : Nat → Option HedgingPosition
  hedging_maintenance_ratio : TokenId → Nat
  limit_hedge_percentage : TokenId → Nat
  mint_fee_curve : TokenId → Nat → Nat
  burn_fee_curve : TokenId → Nat → Nat
  stablecoin_token_id : TokenId
  minted_to_caller : Nat
  burned_stablecoin : Nat
  collateral_sent_to_caller : TokenId → Nat

/-- Modelled from the spec: whitelist membership check of the missing pools
module; fails with the unknown-collateral error (spec sections 4.2, 7). -/
def require_collateral_in_whitelist (c : TokenId) (s : State) : Except Err Unit :=
  if s.whitelist c then .ok () else .error .collateralNotWhitelisted

/-- Modelled from the spec: the Price Feed collaborator
`get_price(collateral_id)`; fails with PriceUnavailable when no quote
exists (spec section 6). -/
def get_collateral_value_in_dollars (c : TokenId) (s : State) : Except Err Nat :=
  match s.price c with
  | none => .error .priceUnavailable
  | some p => .ok p

/-- Modelled from the spec: collateral-specific precision lookup of the
missing pools module (spec section 4.1). -/
def get_collateral_precision (c : TokenId) (s : State) : Nat :=
  s.precision c

/-- Modelled from the spec: the read-modify-write pool update helper of the
missing pools module with an infallible transformation (spec section 9). -/
def update_pool (c : TokenId) (f : Pool → Pool) (s : State) : State :=
  { s with pools := upd s.pools c (f (s.pools c)) }

/-- Modelled from the spec: the read-modify-write pool update helper of the
missing pools module with a transformation that may abort; the record is
committed only when the transformation succeeds (spec section 9). -/
def update_pool_sc (c : TokenId) (f : Pool → Except Err Pool) (s : State) :
    Except Err Unit × State :=
  match f (s.pools c) with
  | .error e => (.error e, s)
  | .ok p => (.ok (), { s with pools := upd s.pools c p })

/-- `rebalance_pool` endpoint, from
src/stablecoin-v2/src/actors/keepers.rs lines 17-64. -/
def rebalance_pool (collateral_id : TokenId) (s : State) : Except Err Unit × State :=
  match require_collateral_in_whitelist collateral_id s with
  | .error e => (.error e, s)
  | .ok _ =>
    match get_collateral_value_in_dollars collateral_id s with
    | .error e => (.error e, s)
    | .ok collateral_value_in_dollars =>
      let collateral_precision := get_collateral_precision collateral_id s
      update_pool_sc collateral_id (fun pool =>
        match multiply pool.collateral_amount collateral_value_in_dollars
            collateral_precision with
        | .error e => .error e
        | .ok pool_value_in_dollars =>
          -- collateral value increased, so the extra is moved to reserves
          if pool.stablecoin_amount < pool_value_in_dollars then
            match divide (pool_value_in_dollars - pool.stablecoin_amount)
                collateral_value_in_dollars collateral_precision with
            | .error e => .error e
            | .ok extra_collateral_amount =>
              .ok { pool with
                collateral_reserves :=
                  pool.collateral_reserves + extra_collateral_amount,
                stablecoin_amount := pool_value_in_dollars }
          -- collateral value decreased, so reserves cover the deficit
          else
            match divide (pool.stablecoin_amount - pool_value_in_dollars)
                collateral_value_in_dollars collateral_precision with
            | .error e => .error e
            | .ok missing_collateral_amount =>
              if pool.collateral_reserves < missing_collateral_amount then
                .error .insufficientReserves
              else
                .ok { pool with
                  collateral_reserves :=
                    pool.collateral_reserves - missing_collateral_amount,
                  stablecoin_amount := pool_value_in_dollars }) s

/-- Modelled from the spec: current hedging ratio, zero when the pool backs
no stablecoin (spec section 4.3). -/
def calculate_current_hedging_ratio (c : TokenId) (s : State) : Nat :=
  let pool := s.pools c
  if pool.stablecoin_amount = 0 then 0
  else pool.total_covered_value_in_stablecoin * ONE / pool.stablecoin_amount

/-- Modelled from the spec: the Fee Curve collaborator applied to the
current hedging ratio to obtain the mint fee percentage (spec section 4.3). -/
def calculate_mint_transaction_fees_percentage (c : TokenId) (s : State) : Nat :=
  s.mint_fee_curve c (calculate_current_hedging_ratio c s)

/-- Modelled from the spec: the Fee Curve collaborator applied to the
current hedging ratio to obtain the burn fee percentage (spec section 4.3). -/
def calculate_burn_transaction_fees_percentage (c : TokenId) (s : State) : Nat :=
  s.burn_fee_curve c (calculate_current_hedging_ratio c s)

/-- Modelled from the spec: the stored mint fee percentage read by the swap
engine from the current fee configuration (spec section 3). -/
def get_mint_transaction_fees_percentage (c : TokenId) (s : State) : Nat :=
  (s.current_fee_configuration c).mint_fee_percentage

/-- Modelled from the spec: the stored burn fee percentage read by the swap
engine from the current fee configuration (spec section 3). -/
def get_burn_transaction_fees_percentage (c : TokenId) (s : State) : Nat :=
  (s.current_fee_configuration c).burn_fee_percentage

/-- `update_fees_percentage` endpoint, from
src/stablecoin-v2/src/actors/keepers.rs lines 66-78; it has no failure
path. -/
def update_fees_percentage (collateral_id : TokenId) (s : State) : State :=
  let hedging_ratio := calculate_current_hedging_ratio collateral_id s
  let mint_fee_percentage := calculate_mint_transaction_fees_percentage collateral_id s
  let burn_fee_percentage := calculate_burn_transaction_fees_percentage collateral_id s
  let cfg : CurrentFeeConfiguration :=
    { hedging_ratio := hedging_ratio,
      mint_fee_percentage := mint_fee_percentage,
      burn_fee_percentage := burn_fee_percentage }
  { s with current_fee_configuration := upd s.current_fee_configuration collateral_id cfg }

/-- `split_fees` endpoint, from
src/stablecoin-v2/src/actors/keepers.rs lines 80-101. -/
def split_fees (collateral_id : TokenId) (s : State) : Except Err Unit × State :=
  let liq_provider_fee_reward_percentage :=
    s.liq_provider_fee_reward_percentage collateral_id
  let accumulated_fees := s.accumulated_tx_fees collateral_id
  let liq_provider_reward :=
    calculate_percentage_of liq_provider_fee_reward_percentage accumulated_fees
  match bsub accumulated_fees liq_provider_reward with
  | .error e => (.error e, s)
  | .ok leftover =>
    let sft_nonce := s.liq_sft_nonce_for_collateral collateral_id
    let liq_map :=
      upd s.collateral_amount_for_liq_token sft_nonce
        (s.collateral_amount_for_liq_token sft_nonce + liq_provider_reward)
    let s1 := { s with collateral_amount_for_liq_token := liq_map }
    let s2 := update_pool collateral_id
      (fun pool => { pool with collateral_reserves := pool.collateral_reserves + leftover }) s1
    let s3 := { s2 with accumulated_tx_fees := upd s2.accumulated_tx_fees collateral_id 0 }
    (.ok (), s3)

/-- Modelled from the spec: `calculate_limit_hedge_amount` of the missing
hedging module, recomputed from the pool's collateral amount via a stored
per-collateral percentage (spec section 4.5). -/
def calculate_limit_hedge_amount (c : TokenId) (collateral_amount : Nat)
    (s : State) : Nat :=
  calculate_percentage_of (s.limit_hedge_percentage c) collateral_amount

/-- Modelled from the spec: the Position Lifecycle collaborator
`close_position`, which settles the position's covered amount against the
pool's total covered value (spec section 6); embedded via the transactional
pool update so a settlement underflow commits nothing. -/
def close_position (pos : HedgingPosition) (s : State) : Except Err Unit × State :=
  update_pool_sc pos.collateral_id (fun pool =>
    match bsub pool.total_covered_value_in_stablecoin pos.covered_amount with
    | .error e => .error e
    | .ok t => .ok { pool with total_covered_value_in_stablecoin := t }) s

/-- Modelled from the spec: the withdrawal-amount computation consumed by
force-close is an out-of-scope collaborator (spec section 1); embedded as
returning the posted margin with no further state effect. -/
def get_withdraw_amount_and_update_fees (pos : HedgingPosition) : Except Err Nat :=
  .ok pos.deposit_amount

/-- `force_close_hedging_position` endpoint, from
src/stablecoin-v2/src/actors/keepers.rs lines 103-123; the liquidation
check is the absence of the position record (spec section 3). -/
def force_close_hedging_position (nft_nonce : Nat) (s : State) :
    Except Err Unit × State :=
  match s.hedging_position nft_nonce with
  | none => (.error .positionLiquidated, s)
  | some hedging_position =>
    let pool := s.pools hedging_position.collateral_id
    let limit_hedge_amount :=
      calculate_limit_hedge_amount hedging_position.collateral_id
        pool.collateral_amount s
    if pool.total_covered_value_in_stablecoin ≤ limit_hedge_amount then
      (.error .thresholdNotReached, s)
    else
      match close_position hedging_position s with
      | (.error e, s1) => (.error e, s1)
      | (.ok _, s1) =>
        match get_withdraw_amount_and_update_fees hedging_position with
        | .error e => (.error e, s1)
        | .ok withdraw_amount =>
          let closed_position :=
            { hedging_position with
              withdraw_amount_after_force_close := some withdraw_amount }
          let pos_map := upd s1.hedging_position nft_nonce (some closed_position)
          (.ok (), { s1 with hedging_position := pos_map })

/-- `calculate_margin_ratio`, from
src/stablecoin-v2/src/actors/keepers.rs lines 147-175; all quantities are
`BigUint`, so the depreciation penalty is a checked unsigned subtraction. -/
def calculate_margin_ratio (hedging_position : HedgingPosition) (s : State) :
    Except Err Nat :=
  match get_collateral_value_in_dollars hedging_position.collateral_id s with
  | .error e => .error e
  | .ok collateral_value_in_dollars =>
    match calculate_ratio hedging_position.deposit_amount
        hedging_position.covered_amount with
    | .error e => .error e
    | .ok amount_ratio =>
      match calculate_ratio hedging_position.oracle_value_at_deposit_time
          collateral_value_in_dollars with
      | .error e => .error e
      | .ok price_ratio =>
        if price_ratio ≤ ONE then
          .ok (amount_ratio + (ONE - price_ratio))
        else
          bsub amount_ratio (price_ratio - ONE)

/-- `liquidate_hedging_position` endpoint, from
src/stablecoin-v2/src/actors/keepers.rs lines 125-145; the liquidation
check is the absence of the record, the closed check is the presence of a
recorded withdrawal (spec section 3). -/
def liquidate_hedging_position (nft_nonce : Nat) (s : State) :
    Except Err Unit × State :=
  match s.hedging_position nft_nonce with
  | none => (.error .positionLiquidated, s)
  | some hedging_position =>
    if hedging_position.withdraw_amount_after_force_close.isSome then
      (.error .positionClosed, s)
    else
      match calculate_margin_ratio hedging_position s with
      | .error e => (.error e, s)
      | .ok margin_ratio =>
        if s.hedging_maintenance_ratio hedging_position.collateral_id < margin_ratio then
          (.error .positionStillHealthy, s)
        else
          match close_position hedging_position s with
          | (.error e, s1) => (.error e, s1)
          | (.ok _, s1) =>
            let pos_map := upd s1.hedging_position nft_nonce none
            (.ok (), { s1 with hedging_position := pos_map })

/-- `sell_collateral` endpoint, from
src/stablecoin-v2/src/actors/stable_seekers.rs lines 12-42; note the
stablecoin output is the raw product of price and net collateral. -/
def sell_collateral (payment_token : TokenId) (payment_amount min_amount_out : Nat)
    (s : State) : Except Err Unit × State :=
  match require_collateral_in_whitelist payment_token s with
  | .error e => (.error e, s)
  | .ok _ =>
    match get_collateral_value_in_dollars payment_token s with
    | .error e => (.error e, s)
    | .ok collateral_value_in_dollars =>
      let transaction_fees_percentage :=
        get_mint_transaction_fees_percentage payment_token s
      let fees_amount_in_collateral :=
        calculate_percentage_of transaction_fees_percentage payment_amount
      match bsub payment_amount fees_amount_in_collateral with
      | .error e => (.error e, s)
      | .ok collateral_amount =>
        let stablecoin_amount := collateral_value_in_dollars * collateral_amount
        if stablecoin_amount < min_amount_out then (.error .belowMinAmount, s)
        else
          let s1 := update_pool payment_token (fun pool =>
            { pool with
              collateral_amount := pool.collateral_amount + collateral_amount,
              stablecoin_amount := pool.stablecoin_amount + stablecoin_amount }) s
          let fee_map :=
            upd s1.accumulated_tx_fees payment_token
              (s1.accumulated_tx_fees payment_token + fees_amount_in_collateral)
          let s2 := { s1 with accumulated_tx_fees := fee_map }
          let s3 := { s2 with minted_to_caller := s2.minted_to_caller + stablecoin_amount }
          (.ok (), s3)

/-- `buy_collateral` endpoint, from
src/stablecoin-v2/src/actors/stable_seekers.rs lines 44-94. -/
def buy_collateral (payment_token : TokenId) (payment_amount : Nat)
    (collateral_id : TokenId) (min_amount_out : Nat) (s : State) :
    Except Err Unit × State :=
  if payment_token = s.stablecoin_token_id then
    match require_collateral_in_whitelist collateral_id s with
    | .error e => (.error e, s)
    | .ok _ =>
      match get_collateral_value_in_dollars collateral_id s with
      | .error e => (.error e, s)
      | .ok collateral_value_in_dollars =>
        match bdiv payment_amount collateral_value_in_dollars with
        | .error e => (.error e, s)
        | .ok total_value_in_collateral =>
          let transaction_fees_percentage :=
            get_burn_transaction_fees_percentage collateral_id s
          let fees_amount_in_collateral :=
            calculate_percentage_of transaction_fees_percentage
              total_value_in_collateral
          match bsub total_value_in_collateral fees_amount_in_collateral with
          | .error e => (.error e, s)
          | .ok collateral_amount =>
            if collateral_amount < min_amount_out then (.error .belowMinAmount, s)
            else
              match update_pool_sc collateral_id (fun pool =>
                if pool.collateral_amount < collateral_amount then
                  .error .insufficientFunds
                else if pool.stablecoin_amount < payment_amount then
                  .error .tooManyStablecoins
                else
                  .ok { pool with
                    collateral_amount := pool.collateral_amount - collateral_amount,
                    stablecoin_amount := pool.stablecoin_amount - payment_amount }) s with
              | (.error e, s1) => (.error e, s1)
              | (.ok _, s1) =>
                let fee_map :=
                  upd s1.accumulated_tx_fees collateral_id
                    (s1.accumulated_tx_fees collateral_id + fees_amount_in_collateral)
                let s2 := { s1 with accumulated_tx_fees := fee_map }
                let s3 := { s2 with burned_stablecoin := s2.burned_stablecoin + payment_amount }
                let sent_map :=
                  upd s3.collateral_sent_to_caller collateral_id
                    (s3.collateral_sent_to_caller collateral_id + collateral_amount)
                let s4 := { s3 with collateral_sent_to_caller := sent_map }
                (.ok (), s4)
  else (.error .wrongPaymentToken, s)

end Stablecoin

namespace Stablecoin

/-- Claimed contract of `buy_collateral`, transcribed from the
specification sentence behind claim C7 (spec section 4.4): the checks in
their claimed order — wrong payment token, collateral not whitelisted,
price unavailable, output below the requested minimum, insufficient pool
collateral, excessive stablecoin payment — and the claimed success
effects.  The error constructors are the code's message-derived names:
`belowMinAmount` is BelowMinimumOutput, `insufficientFunds` is
InsufficientPoolCollateral, `tooManyStablecoins` is
ExcessiveStablecoinPayment. -/
def buy_collateral_claimed (payment_token : TokenId) (payment_amount : Nat)
    (collateral_id : TokenId) (min_amount_out : Nat) (s : State) :
    Except Err Unit × State :=
  if payment_token ≠ s.stablecoin_token_id then (.error .wrongPaymentToken, s)
  else if ¬ s.whitelist collateral_id then (.error .collateralNotWhitelisted, s)
  else
    match s.price collateral_id with
    | none => (.error .priceUnavailable, s)
    | some P =>
      let total := payment_amount / P
      let fee := calculate_percentage_of
        (s.current_fee_configuration collateral_id).burn_fee_percentage total
      let collateral_out := total - fee
      if collateral_out < min_amount_out then (.error .belowMinAmount, s)
      else if (s.pools collateral_id).collateral_amount < collateral_out then
        (.error .insufficientFunds, s)
      else if (s.pools collateral_id).stablecoin_amount < payment_amount then
        (.error .tooManyStablecoins, s)
      else
        let pool := s.pools collateral_id
        let pool2 := { pool with
          collateral_amount := pool.collateral_amount - collateral_out,
          stablecoin_amount := pool.stablecoin_amount - payment_amount }
        let fee_map := upd s.accumulated_tx_fees collateral_id
          (s.accumulated_tx_fees collateral_id + fee)
        let sent_map := upd s.collateral_sent_to_caller collateral_id
          (s.collateral_sent_to_caller collateral_id + collateral_out)
        (.ok (), { s with
          pools := upd s.pools collateral_id pool2,
          accumulated_tx_fees := fee_map,
          burned_stablecoin := s.burned_stablecoin + payment_amount,
          collateral_sent_to_caller := sent_map })

/-- Concrete pool of the worked example in spec section 8. -/
def examplePool : Pool :=
  { collateral_amount := 100, stablecoin_amount := 150 * ONE,
    collateral_reserves := 0, total_covered_value_in_stablecoin := 0 }

/-- Concrete base state used by the witnesses: every collateral
whitelisted at price 2.0 with unit precision, zero fees, no positions. -/
def baseState : State where
  whitelist := fun _ => true
  price := fun _ => some (2 * ONE)
  precision := fun _ => 1
  pools := fun _ => examplePool
  current_fee_configuration := fun _ =>
    { hedging_ratio := 0, mint_fee_percentage := 0, burn_fee_percentage := 0 }
  accumulated_tx_fees := fun _ => 0
  liq_provider_fee_reward_percentage := fun _ => 0
  liq_sft_nonce_for_collateral := fun _ => 0
  collateral_amount_for_liq_token := fun _ => 0
  hedging_position := fun _ => none
  hedging_maintenance_ratio := fun _ => 0
  limit_hedge_percentage := fun _ => 0
  mint_fee_curve := fun _ _ => 0
  burn_fee_curve := fun _ _ => 0
  stablecoin_token_id := 99
  minted_to_caller := 0
  burned_stablecoin := 0
  collateral_sent_to_caller := fun _ => 0

/-- The hedging position of the margin example in spec section 8. -/
def marginPosition : HedgingPosition :=
  { collateral_id := 1, deposit_amount := 100, covered_amount := 500,
    oracle_value_at_deposit_time := ONE,
    withdraw_amount_after_force_close := none }

/-- The margin example of spec section 8: current price 0.8, maintenance
ratio 0.05, position `marginPosition` stored at nonce 1. -/
def marginState : State :=
  { baseState with
    price := fun _ => some (8 * 100000000000000000),
    hedging_position := fun n => if n = 1 then some marginPosition else none,
    hedging_maintenance_ratio := fun _ => 5 * 10000000000000000 }

/-- A small open position used for the force-close scenarios. -/
def forceClosePosition : HedgingPosition :=
  { collateral_id := 1, deposit_amount := 10, covered_amount := 1,
    oracle_value_at_deposit_time := ONE,
    withdraw_amount_after_force_close := none }

/-- A state whose pool is far above the limit hedge amount, so force-close
is enabled for the stored position at nonce 1. -/
def forceCloseState : State :=
  { baseState with
    pools := fun _ =>
      { collateral_amount := 100, stablecoin_amount := 0,
        collateral_reserves := 0, total_covered_value_in_stablecoin := 10 },
    hedging_position := fun n => if n = 1 then some forceClosePosition else none }

/-- A position with zero posted margin, liquidatable at an unchanged
price. -/
def liquidatablePosition : HedgingPosition :=
  { collateral_id := 1, deposit_amount := 0, covered_amount := 1,
    oracle_value_at_deposit_time := ONE,
    withdraw_amount_after_force_close := none }

/-- A state in which the position at nonce 1 has margin ratio zero and the
maintenance ratio is zero, so liquidation succeeds. -/
def liquidatableState : State :=
  { baseState with
    price := fun _ => some ONE,
    pools := fun _ =>
      { collateral_amount := 100, stablecoin_amount := 0,
        collateral_reserves := 0, total_covered_value_in_stablecoin := 5 },
    hedging_position := fun n => if n = 1 then some liquidatablePosition else none }

/-- A state with unit price, empty pool and a one-unit mint fee
percentage, exhibiting a fee amount floored to zero. -/
def feeState : State :=
  { baseState with
    price := fun _ => some 1,
    pools := fun _ =>
      { collateral_amount := 0, stablecoin_amount := 0,
        collateral_reserves := 0, total_covered_value_in_stablecoin := 0 },
    current_fee_configuration := fun _ =>
      { hedging_ratio := 0, mint_fee_percentage := 1, burn_fee_percentage := 0 } }

/-- A state in which no collateral is whitelisted. -/
def notWhitelistedState : State :=
  { baseState with whitelist := fun _ => false }

/-- A state with accumulated fees 10 and a fifty percent liquidity
provider reward share. -/
def splitState : State :=
  { baseState with
    liq_provider_fee_reward_percentage := fun _ => 500000000000000000,
    accumulated_tx_fees := fun _ => 10 }


theorem upd_eval {α : Type} (m : TokenId → α) (k : TokenId) (v : α) :
    upd m k v k = v := by
  simp [upd]

theorem upd_self {α : Type} (m : TokenId → α) (k : TokenId) :
    upd m k (m k) = m := by
  funext j
  unfold upd
  split
  · simp [*]
  · rfl

theorem calculate_percentage_of_le {pct : Nat} (amount : Nat) (h : pct ≤ ONE) :
    calculate_percentage_of pct amount ≤ amount := by
  unfold calculate_percentage_of
  calc pct * amount / ONE ≤ ONE * amount / ONE :=
        Nat.div_le_div_right (Nat.mul_le_mul_right amount h)
    _ = amount := Nat.mul_div_cancel_left amount (by norm_num [ONE])

theorem update_pool_sc_error {c : TokenId} {f : Pool → Except Err Pool}
    {s : State} {e : Err} {s' : State}
    (h : update_pool_sc c f s = (.error e, s')) : s' = s := by
  unfold update_pool_sc at h
  split at h
  · exact (Prod.mk.injEq .. ▸ h).2.symm
  · simp at h

/-- Characterization of a rebalance under a whitelisted collateral, an
available positive price and a positive precision: the exact branch
structure of the source algorithm. -/
theorem rebalance_pool_spec (c : TokenId) (s : State) (P : Nat)
    (hw : s.whitelist c = true) (hp : s.price c = some P)
    (hP : 0 < P) (hprec : 0 < s.precision c) :
    rebalance_pool c s =
      (let pool := s.pools c
       let pv := pool.collateral_amount * P / s.precision c
       let extra := (pv - pool.stablecoin_amount) * s.precision c / P
       let missing := (pool.stablecoin_amount - pv) * s.precision c / P
       if pool.stablecoin_amount < pv then
         (.ok (), { s with pools := upd s.pools c { pool with collateral_reserves := pool.collateral_reserves + extra, stablecoin_amount := pv } })
       else if pool.collateral_reserves < missing then
         (.error .insufficientReserves, s)
       else
         (.ok (), { s with pools := upd s.pools c { pool with collateral_reserves := pool.collateral_reserves - missing, stablecoin_amount := pv } })) := by
  simp only [rebalance_pool, require_collateral_in_whitelist,
    get_collateral_value_in_dollars, get_collateral_precision, update_pool_sc,
    multiply, divide, bdiv, hw, hp, if_true, hP.ne', hprec.ne', if_false,
    ite_false]
  by_cases h1 : (s.pools c).stablecoin_amount < (s.pools c).collateral_amount * P / s.precision c
  · simp [h1]
  · by_cases h2 : (s.pools c).collateral_reserves <
        ((s.pools c).stablecoin_amount - (s.pools c).collateral_amount * P / s.precision c) * s.precision c / P
    · simp [h1, h2]
    · simp [h1, h2]





/-- A successful rebalance forces a whitelisted collateral, an available
positive price and a positive precision. -/
theorem rebalance_pool_ok_inv (c : TokenId) (s : State)
    (h : (rebalance_pool c s).1 = .ok ()) :
    s.whitelist c = true ∧
      ∃ P, s.price c = some P ∧ 0 < P ∧ 0 < s.precision c := by
  cases hw : s.whitelist c with
  | false =>
    simp [rebalance_pool, require_collateral_in_whitelist, hw] at h
  | true =>
    cases hp : s.price c with
    | none =>
      simp [rebalance_pool, require_collateral_in_whitelist,
        get_collateral_value_in_dollars, hw, hp] at h
    | some P =>
      by_cases hprec : s.precision c = 0
      · simp [rebalance_pool, require_collateral_in_whitelist,
          get_collateral_value_in_dollars, get_collateral_precision,
          update_pool_sc, multiply, bdiv, hw, hp, hprec] at h
      · by_cases hP : P = 0
        · simp [rebalance_pool, require_collateral_in_whitelist,
            get_collateral_value_in_dollars, get_collateral_precision,
            update_pool_sc, multiply, divide, bdiv, hw, hp, hprec, hP] at h
        · exact ⟨rfl, P, rfl, Nat.pos_of_ne_zero hP, Nat.pos_of_ne_zero hprec⟩





/-- A pool whose stored liability already equals its collateral priced at
the available price is a fixed point of `rebalance_pool`. -/
theorem rebalance_pool_fixed (c : TokenId) (t : State) (P : Nat)
    (hw : t.whitelist c = true) (hp : t.price c = some P)
    (hP : 0 < P) (hprec : 0 < t.precision c)
    (hfix : (t.pools c).stablecoin_amount =
      (t.pools c).collateral_amount * P / t.precision c) :
    rebalance_pool c t = (.ok (), t) := by
  rw [rebalance_pool_spec c t P hw hp hP hprec]
  simp only [← hfix, Nat.sub_self, Nat.zero_mul, Nat.zero_div, lt_irrefl,
    if_false, Nat.not_lt_zero, Nat.sub_zero]
  show (Except.ok (), { t with pools := upd t.pools c (t.pools c) }) = (Except.ok (), t)
  rw [upd_self]

/-- C8: if `rebalance_pool` succeeds then rebalancing again at the
unchanged price succeeds and is a no-op on the whole state, so every pool
field is unchanged by the second call. -/
theorem rebalance_pool_idem (c : TokenId) (s : State)
    (h : (rebalance_pool c s).1 = .ok ()) :
    rebalance_pool c (rebalance_pool c s).2 = (.ok (), (rebalance_pool c s).2) := by
  obtain ⟨hw, P, hp, hP, hprec⟩ := rebalance_pool_ok_inv c s h
  have hs := rebalance_pool_spec c s P hw hp hP hprec
  rw [hs] at h ⊢
  by_cases h1 : (s.pools c).stablecoin_amount <
      (s.pools c).collateral_amount * P / s.precision c
  · rw [if_pos h1] at h ⊢
    refine rebalance_pool_fixed c _ P hw hp hP hprec ?_
    simp only [upd_eval]
  · rw [if_neg h1] at h ⊢
    by_cases h2 : (s.pools c).collateral_reserves <
        ((s.pools c).stablecoin_amount -
          (s.pools c).collateral_amount * P / s.precision c) * s.precision c / P
    · rw [if_pos h2] at h
      simp at h
    · rw [if_neg h2] at h ⊢
      refine rebalance_pool_fixed c _ P hw hp hP hprec ?_
      simp only [upd_eval]

theorem close_position_error {pos : HedgingPosition} {s : State} {e : Err}
    {s' : State} (h : close_position pos s = (.error e, s')) : s' = s := by
  unfold close_position at h
  exact update_pool_sc_error h

theorem rebalance_pool_error {c : TokenId} {s : State} {e : Err} {s' : State}
    (h : rebalance_pool c s = (.error e, s')) : s' = s := by
  unfold rebalance_pool at h
  simp only [] at h
  repeat' split at h
  all_goals
    first
      | exact (congrArg Prod.snd h).symm
      | exact Except.noConfusion (congrArg Prod.fst h)
      | exact update_pool_sc_error h

theorem split_fees_error {c : TokenId} {s : State} {e : Err} {s' : State}
    (h : split_fees c s = (.error e, s')) : s' = s := by
  unfold split_fees at h
  simp only [] at h
  repeat' split at h
  all_goals
    first
      | exact (congrArg Prod.snd h).symm
      | exact Except.noConfusion (congrArg Prod.fst h)

theorem sell_collateral_error {t : TokenId} {a m : Nat} {s : State} {e : Err}
    {s' : State} (h : sell_collateral t a m s = (.error e, s')) : s' = s := by
  unfold sell_collateral at h
  simp only [] at h
  repeat' split at h
  all_goals
    first
      | exact (congrArg Prod.snd h).symm
      | exact Except.noConfusion (congrArg Prod.fst h)

theorem buy_collateral_error {t : TokenId} {a : Nat} {c : TokenId} {m : Nat}
    {s : State} {e : Err} {s' : State}
    (h : buy_collateral t a c m s = (.error e, s')) : s' = s := by
  unfold buy_collateral at h
  simp only [] at h
  repeat' split at h
  all_goals
    first
      | exact (congrArg Prod.snd h).symm
      | exact Except.noConfusion (congrArg Prod.fst h)
      | (rename_i heq
         exact (congrArg Prod.snd h).symm.trans (update_pool_sc_error heq))

theorem force_close_error {n : Nat} {s : State} {e : Err} {s' : State}
    (h : force_close_hedging_position n s = (.error e, s')) : s' = s := by
  unfold force_close_hedging_position at h
  simp only [] at h
  repeat' split at h
  all_goals
    first
      | exact (congrArg Prod.snd h).symm
      | exact Except.noConfusion (congrArg Prod.fst h)
      | (rename_i heq
         exact (congrArg Prod.snd h).symm.trans (close_position_error heq))
      | (rename_i heq
         exact absurd heq (by simp [get_withdraw_amount_and_update_fees]))

theorem liquidate_error {n : Nat} {s : State} {e : Err} {s' : State}
    (h : liquidate_hedging_position n s = (.error e, s')) : s' = s := by
  unfold liquidate_hedging_position at h
  simp only [] at h
  repeat' split at h
  all_goals
    first
      | exact (congrArg Prod.snd h).symm
      | exact Except.noConfusion (congrArg Prod.fst h)
      | (rename_i heq
         exact (congrArg Prod.snd h).symm.trans (close_position_error heq))

theorem liquidate_ok_cleared {n : Nat} {s s' : State} {u : Unit}
    (h : liquidate_hedging_position n s = (.ok u, s')) :
    s'.hedging_position n = none := by
  unfold liquidate_hedging_position at h
  simp only [] at h
  repeat' split at h
  all_goals
    first
      | exact Except.noConfusion (congrArg Prod.fst h)
      | (have h2 := congrArg Prod.snd h
         simp only [] at h2
         subst h2
         simp [upd_eval])

theorem force_close_ok_closed {n : Nat} {s s' : State} {u : Unit}
    (h : force_close_hedging_position n s = (.ok u, s')) :
    ∃ p : HedgingPosition, s'.hedging_position n = some p ∧
      p.withdraw_amount_after_force_close.isSome := by
  unfold force_close_hedging_position at h
  simp only [] at h
  repeat' split at h
  all_goals
    first
      | exact Except.noConfusion (congrArg Prod.fst h)
      | (have h2 := congrArg Prod.snd h
         simp only [] at h2
         subst h2
         simp [upd_eval])

theorem liquidate_absent {n : Nat} {s : State}
    (h : s.hedging_position n = none) :
    liquidate_hedging_position n s = (.error .positionLiquidated, s) := by
  unfold liquidate_hedging_position
  rw [h]

theorem force_close_absent {n : Nat} {s : State}
    (h : s.hedging_position n = none) :
    force_close_hedging_position n s = (.error .positionLiquidated, s) := by
  unfold force_close_hedging_position
  rw [h]

theorem liquidate_closed_fails {n : Nat} {s : State} {p : HedgingPosition}
    (h : s.hedging_position n = some p)
    (hc : p.withdraw_amount_after_force_close.isSome) :
    liquidate_hedging_position n s = (.error .positionClosed, s) := by
  unfold liquidate_hedging_position
  rw [h]
  simp [hc]

/-- C1: for every whitelisted collateral and pool state, with the price
available and positive and the precision positive, `rebalance_pool`
computes the pool value by the scaled truncating multiply; when the value
exceeds the stored liability it credits reserves with the price-converted
surplus leaving `collateral_amount` unchanged, otherwise it fails with
InsufficientReserves when the price-converted deficit exceeds the
reserves and debits the reserves otherwise; both success branches store
the new pool value as `stablecoin_amount`. -/
theorem rebalance_pool_branch_contract (c : TokenId) (s : State) (P : Nat)
    (hw : s.whitelist c = true) (hp : s.price c = some P)
    (hP : 0 < P) (hprec : 0 < s.precision c) :
    rebalance_pool c s =
      (let pool := s.pools c
       let pv := pool.collateral_amount * P / s.precision c
       let extra := (pv - pool.stablecoin_amount) * s.precision c / P
       let missing := (pool.stablecoin_amount - pv) * s.precision c / P
       if pool.stablecoin_amount < pv then
         (.ok (), { s with pools := upd s.pools c { pool with collateral_reserves := pool.collateral_reserves + extra, stablecoin_amount := pv } })
       else if pool.collateral_reserves < missing then
         (.error .insufficientReserves, s)
       else
         (.ok (), { s with pools := upd s.pools c { pool with collateral_reserves := pool.collateral_reserves - missing, stablecoin_amount := pv } })) :=
  rebalance_pool_spec c s P hw hp hP hprec

/-- Witness for C1 at the worked example of spec section 8: price 2.0,
pool of 100 collateral backing 150.0, yielding reserves 25 and liability
200.0. -/
theorem rebalance_pool_branch_contract_witness :
    (rebalance_pool 1 baseState).1 = .ok () ∧
    ((rebalance_pool 1 baseState).2.pools 1).collateral_reserves = 25 ∧
    ((rebalance_pool 1 baseState).2.pools 1).stablecoin_amount = 200 * ONE ∧
    ((rebalance_pool 1 baseState).2.pools 1).collateral_amount = 100 := by
  have h := rebalance_pool_branch_contract 1 baseState (2 * ONE) rfl rfl
    (by decide) (by decide)
  rw [h]
  exact ⟨rfl, rfl, rfl, rfl⟩

/-- C2: the margin example of spec section 8 (deposit 100 covering 500,
opened at price 1.0, current price 0.8) makes the unsigned margin
computation abort with an underflow, so the liquidation fails instead of
succeeding with margin -0.05 as the specification claims. -/
theorem margin_example_underflow_aborts :
    calculate_margin_ratio marginPosition marginState = .error .bigUintUnderflow ∧
    liquidate_hedging_position 1 marginState = (.error .bigUintUnderflow, marginState) :=
  ⟨rfl, rfl⟩

/-- C3: every failing endpoint returns the state it was called on — no
partial effect persists, including mutations attempted inside a pool
update transformation that later aborts.  `update_fees_percentage` has no
failure path, so it appears with no failure clause. -/
theorem failing_operations_leave_state_unchanged :
    (∀ c s e s', rebalance_pool c s = (.error e, s') → s' = s) ∧
    (∀ c s e s', split_fees c s = (.error e, s') → s' = s) ∧
    (∀ n s e s', force_close_hedging_position n s = (.error e, s') → s' = s) ∧
    (∀ n s e s', liquidate_hedging_position n s = (.error e, s') → s' = s) ∧
    (∀ t a m s e s', sell_collateral t a m s = (.error e, s') → s' = s) ∧
    (∀ t a c m s e s', buy_collateral t a c m s = (.error e, s') → s' = s) :=
  ⟨fun _ _ _ _ h => rebalance_pool_error h,
   fun _ _ _ _ h => split_fees_error h,
   fun _ _ _ _ h => force_close_error h,
   fun _ _ _ _ h => liquidate_error h,
   fun _ _ _ _ _ _ h => sell_collateral_error h,
   fun _ _ _ _ _ _ _ h => buy_collateral_error h⟩

/-- Witness for C3: a rebalance on a non-whitelisted collateral fails and
returns the state unchanged. -/
theorem failing_operations_leave_state_unchanged_witness :
    rebalance_pool 1 notWhitelistedState =
      (.error .collateralNotWhitelisted, notWhitelistedState) ∧
    (rebalance_pool 1 notWhitelistedState).2 = notWhitelistedState :=
  ⟨rfl, failing_operations_leave_state_unchanged.1 1 notWhitelistedState
    .collateralNotWhitelisted (rebalance_pool 1 notWhitelistedState).2 rfl⟩

/-- C4 counterexample: a force-closed position can be force-closed again —
`force_close_hedging_position` checks only the liquidation (absence) flag,
so on `forceCloseState` two consecutive force-closes of position 1 both
succeed, refuting the claim that every further call fails. -/
theorem force_close_twice_counterexample :
    (force_close_hedging_position 1 forceCloseState).1 = .ok () ∧
    (force_close_hedging_position 1
      (force_close_hedging_position 1 forceCloseState).2).1 = .ok () :=
  ⟨rfl, rfl⟩

/-- C4 (amended): after a successful liquidation the record is deleted, so
any further liquidation or force-close of the same id fails with the
liquidated error; after a successful force-close the record carries a
withdrawal, so any further liquidation fails with the closed error.  A
second force-close, however, is not blocked by a presence check. -/
theorem no_double_liquidation (n : Nat) (s : State) :
    ((liquidate_hedging_position n s).1 = .ok () →
      liquidate_hedging_position n (liquidate_hedging_position n s).2 =
        (.error .positionLiquidated, (liquidate_hedging_position n s).2) ∧
      force_close_hedging_position n (liquidate_hedging_position n s).2 =
        (.error .positionLiquidated, (liquidate_hedging_position n s).2)) ∧
    ((force_close_hedging_position n s).1 = .ok () →
      liquidate_hedging_position n (force_close_hedging_position n s).2 =
        (.error .positionClosed, (force_close_hedging_position n s).2)) := by
  constructor
  · intro h
    have hc : (liquidate_hedging_position n s).2.hedging_position n = none := by
      rcases hres : liquidate_hedging_position n s with ⟨r, s2⟩
      rw [hres] at h
      simp only [] at h ⊢
      subst h
      exact liquidate_ok_cleared hres
    exact ⟨liquidate_absent hc, force_close_absent hc⟩
  · intro h
    obtain ⟨p, hp2, hps⟩ :
        ∃ p, (force_close_hedging_position n s).2.hedging_position n = some p ∧
          p.withdraw_amount_after_force_close.isSome := by
      rcases hres : force_close_hedging_position n s with ⟨r, s2⟩
      rw [hres] at h
      simp only [] at h ⊢
      subst h
      exact force_close_ok_closed hres
    exact liquidate_closed_fails hp2 hps

/-- Witness for the amended C4 on concrete states: a successful
liquidation at nonce 1 blocks both repeat operations, and a successful
force-close blocks a subsequent liquidation. -/
theorem no_double_liquidation_witness :
    (liquidate_hedging_position 1 liquidatableState).1 = .ok () ∧
    liquidate_hedging_position 1 (liquidate_hedging_position 1 liquidatableState).2 =
      (.error .positionLiquidated, (liquidate_hedging_position 1 liquidatableState).2) ∧
    force_close_hedging_position 1 (liquidate_hedging_position 1 liquidatableState).2 =
      (.error .positionLiquidated, (liquidate_hedging_position 1 liquidatableState).2) ∧
    (force_close_hedging_position 1 forceCloseState).1 = .ok () ∧
    liquidate_hedging_position 1 (force_close_hedging_position 1 forceCloseState).2 =
      (.error .positionClosed, (force_close_hedging_position 1 forceCloseState).2) :=
  ⟨rfl, ((no_double_liquidation 1 liquidatableState).1 rfl).1,
    ((no_double_liquidation 1 liquidatableState).1 rfl).2, rfl,
    (no_double_liquidation 1 forceCloseState).2 rfl⟩

/-- Witness for C8: the rebalance of the worked example succeeds, and the
repeated rebalance at the unchanged price is the identity. -/
theorem rebalance_pool_idem_witness :
    (rebalance_pool 1 baseState).1 = .ok () ∧
    rebalance_pool 1 (rebalance_pool 1 baseState).2 =
      (.ok (), (rebalance_pool 1 baseState).2) :=
  ⟨rfl, rebalance_pool_idem 1 baseState rfl⟩

/-- C9: whether it succeeds or fails, `rebalance_pool` never changes any
pool's `collateral_amount` or `total_covered_value_in_stablecoin`, and it
touches no state component other than the pools map. -/
theorem rebalance_pool_frame (c : TokenId) (s : State) :
    (∀ c', ((rebalance_pool c s).2.pools c').collateral_amount =
        (s.pools c').collateral_amount ∧
      ((rebalance_pool c s).2.pools c').total_covered_value_in_stablecoin =
        (s.pools c').total_covered_value_in_stablecoin) ∧
    (rebalance_pool c s).2 = { s with pools := (rebalance_pool c s).2.pools } := by
  rcases hres : rebalance_pool c s with ⟨r, s2⟩
  simp only []
  cases r with
  | error e =>
    have h2 : s2 = s := rebalance_pool_error hres
    subst h2
    exact ⟨fun c' => ⟨rfl, rfl⟩, rfl⟩
  | ok u =>
    have h1 : (rebalance_pool c s).1 = .ok () := by rw [hres]
    obtain ⟨hw, P, hp, hP, hprec⟩ := rebalance_pool_ok_inv c s h1
    have hs := rebalance_pool_spec c s P hw hp hP hprec
    rw [hres] at hs
    by_cases hlt : (s.pools c).stablecoin_amount <
        (s.pools c).collateral_amount * P / s.precision c
    · rw [if_pos hlt] at hs
      have h2 := congrArg Prod.snd hs
      simp only [] at h2
      subst h2
      refine ⟨fun c' => ?_, rfl⟩
      by_cases hc : c' = c
      · subst hc; simp [upd_eval]
      · simp [upd, hc]
    · rw [if_neg hlt] at hs
      by_cases hr : (s.pools c).collateral_reserves <
          ((s.pools c).stablecoin_amount -
            (s.pools c).collateral_amount * P / s.precision c) * s.precision c / P
      · rw [if_pos hr] at hs
        exact absurd (congrArg Prod.fst hs) (by simp)
      · rw [if_neg hr] at hs
        have h2 := congrArg Prod.snd hs
        simp only [] at h2
        subst h2
        refine ⟨fun c' => ?_, rfl⟩
        by_cases hc : c' = c
        · subst hc; simp [upd_eval]
        · simp [upd, hc]

/-- C10: for a whitelisted collateral with an available price, selling a
zero payment with zero minimum succeeds and the call is the identity on
the state: the pool, the accrued fees and the minted-stablecoin ledger
all grow by exactly zero. -/
theorem sell_zero_payment_noop (c : TokenId) (s : State) (P : Nat)
    (hw : s.whitelist c = true) (hp : s.price c = some P) :
    sell_collateral c 0 0 s = (.ok (), s) := by
  simp [sell_collateral, require_collateral_in_whitelist,
    get_collateral_value_in_dollars, get_mint_transaction_fees_percentage,
    calculate_percentage_of, bsub, update_pool, hw, hp, upd_self]

/-- Witness for C10 at the base example state. -/
theorem sell_zero_payment_noop_witness :
    sell_collateral 1 0 0 baseState = (.ok (), baseState) :=
  sell_zero_payment_noop 1 baseState (2 * ONE) rfl rfl

/-- C6: when the reward percentage is at most one, `split_fees` succeeds,
credits the liquidity-share id with the percentage of the accumulated
fees, credits the remainder to the pool reserves, clears the accumulated
fees, and the two credits sum to the fees accumulated before the call. -/
theorem split_fees_conserves_value (c : TokenId) (s : State)
    (h : s.liq_provider_fee_reward_percentage c ≤ ONE) :
    split_fees c s =
      (.ok (), { s with
        collateral_amount_for_liq_token := upd s.collateral_amount_for_liq_token (s.liq_sft_nonce_for_collateral c) (s.collateral_amount_for_liq_token (s.liq_sft_nonce_for_collateral c) + calculate_percentage_of (s.liq_provider_fee_reward_percentage c) (s.accumulated_tx_fees c)),
        pools := upd s.pools c { s.pools c with collateral_reserves := (s.pools c).collateral_reserves + (s.accumulated_tx_fees c - calculate_percentage_of (s.liq_provider_fee_reward_percentage c) (s.accumulated_tx_fees c)) },
        accumulated_tx_fees := upd s.accumulated_tx_fees c 0 }) ∧
    (split_fees c s).2.accumulated_tx_fees c = 0 ∧
    calculate_percentage_of (s.liq_provider_fee_reward_percentage c) (s.accumulated_tx_fees c) +
      (s.accumulated_tx_fees c -
        calculate_percentage_of (s.liq_provider_fee_reward_percentage c) (s.accumulated_tx_fees c)) =
      s.accumulated_tx_fees c := by
  have hle := calculate_percentage_of_le (s.accumulated_tx_fees c) h
  have hmain : split_fees c s =
      (.ok (), { s with
        collateral_amount_for_liq_token := upd s.collateral_amount_for_liq_token (s.liq_sft_nonce_for_collateral c) (s.collateral_amount_for_liq_token (s.liq_sft_nonce_for_collateral c) + calculate_percentage_of (s.liq_provider_fee_reward_percentage c) (s.accumulated_tx_fees c)),
        pools := upd s.pools c { s.pools c with collateral_reserves := (s.pools c).collateral_reserves + (s.accumulated_tx_fees c - calculate_percentage_of (s.liq_provider_fee_reward_percentage c) (s.accumulated_tx_fees c)) },
        accumulated_tx_fees := upd s.accumulated_tx_fees c 0 }) := by
    simp [split_fees, bsub, hle, update_pool]
  exact ⟨hmain, by rw [hmain]; simp [upd_eval], Nat.add_sub_cancel' hle⟩

/-- Witness for C6: accumulated fees 10 with a fifty percent reward share
split into 5 and 5, and the fee balance is cleared. -/
theorem split_fees_conserves_value_witness :
    (split_fees 1 splitState).2.accumulated_tx_fees 1 = 0 ∧
    calculate_percentage_of (splitState.liq_provider_fee_reward_percentage 1)
        (splitState.accumulated_tx_fees 1) +
      (splitState.accumulated_tx_fees 1 -
        calculate_percentage_of (splitState.liq_provider_fee_reward_percentage 1)
          (splitState.accumulated_tx_fees 1)) =
      splitState.accumulated_tx_fees 1 :=
  ⟨(split_fees_conserves_value 1 splitState (by decide)).2.1,
   (split_fees_conserves_value 1 splitState (by decide)).2.2⟩

/-- Success characterization of `sell_collateral`: with the collateral
whitelisted, the price available, the fee amount no larger than the
payment and the output meeting the minimum, the sale credits the pool
with the net collateral and the raw price-times-net stablecoin value,
accrues the fee, and mints the output to the caller. -/
theorem sell_collateral_ok (c : TokenId) (a m : Nat) (s : State) (P : Nat)
    (hw : s.whitelist c = true) (hp : s.price c = some P)
    (hfee : calculate_percentage_of (s.current_fee_configuration c).mint_fee_percentage a ≤ a)
    (hmin : m ≤ P * (a - calculate_percentage_of (s.current_fee_configuration c).mint_fee_percentage a)) :
    sell_collateral c a m s =
      (.ok (), { s with
        pools := upd s.pools c { s.pools c with
          collateral_amount := (s.pools c).collateral_amount + (a - calculate_percentage_of (s.current_fee_configuration c).mint_fee_percentage a),
          stablecoin_amount := (s.pools c).stablecoin_amount + P * (a - calculate_percentage_of (s.current_fee_configuration c).mint_fee_percentage a) },
        accumulated_tx_fees := upd s.accumulated_tx_fees c (s.accumulated_tx_fees c + calculate_percentage_of (s.current_fee_configuration c).mint_fee_percentage a),
        minted_to_caller := s.minted_to_caller + P * (a - calculate_percentage_of (s.current_fee_configuration c).mint_fee_percentage a) }) := by
  simp [sell_collateral, require_collateral_in_whitelist,
    get_collateral_value_in_dollars, get_mint_transaction_fees_percentage,
    bsub, hw, hp, hfee, update_pool, Nat.not_lt.mpr hmin]

/-- C5 (amended): selling collateral and immediately buying with the whole
minted stablecoin amount at the same positive price returns at most the
original payment, with equality exactly when the two truncated fee
amounts are zero — which happens whenever both fee percentages are zero,
but can also happen for positive percentages on small amounts. -/
theorem sell_then_buy_roundtrip (c : TokenId) (a P : Nat) (s : State)
    (hw : s.whitelist c = true) (hp : s.price c = some P) (hP : 0 < P) (ha : 0 < a)
    (hm : (s.current_fee_configuration c).mint_fee_percentage ≤ ONE)
    (hb : (s.current_fee_configuration c).burn_fee_percentage ≤ ONE) :
    (sell_collateral c a 0 s).1 = .ok () ∧
    (sell_collateral c a 0 s).2.minted_to_caller = s.minted_to_caller +
      P * (a - calculate_percentage_of (s.current_fee_configuration c).mint_fee_percentage a) ∧
    (buy_collateral s.stablecoin_token_id
      (P * (a - calculate_percentage_of (s.current_fee_configuration c).mint_fee_percentage a)) c 0
      (sell_collateral c a 0 s).2).1 = .ok () ∧
    (buy_collateral s.stablecoin_token_id
      (P * (a - calculate_percentage_of (s.current_fee_configuration c).mint_fee_percentage a)) c 0
      (sell_collateral c a 0 s).2).2.collateral_sent_to_caller c =
      s.collateral_sent_to_caller c +
        ((a - calculate_percentage_of (s.current_fee_configuration c).mint_fee_percentage a) -
          calculate_percentage_of (s.current_fee_configuration c).burn_fee_percentage
            (a - calculate_percentage_of (s.current_fee_configuration c).mint_fee_percentage a)) ∧
    ((a - calculate_percentage_of (s.current_fee_configuration c).mint_fee_percentage a) -
      calculate_percentage_of (s.current_fee_configuration c).burn_fee_percentage
        (a - calculate_percentage_of (s.current_fee_configuration c).mint_fee_percentage a)) ≤ a ∧
    (((a - calculate_percentage_of (s.current_fee_configuration c).mint_fee_percentage a) -
        calculate_percentage_of (s.current_fee_configuration c).burn_fee_percentage
          (a - calculate_percentage_of (s.current_fee_configuration c).mint_fee_percentage a)) = a ↔
      calculate_percentage_of (s.current_fee_configuration c).mint_fee_percentage a = 0 ∧
      calculate_percentage_of (s.current_fee_configuration c).burn_fee_percentage
        (a - calculate_percentage_of (s.current_fee_configuration c).mint_fee_percentage a) = 0) := by
  have mf := calculate_percentage_of_le a hm
  have bf := calculate_percentage_of_le
    (a - calculate_percentage_of (s.current_fee_configuration c).mint_fee_percentage a) hb
  have hdiv : P * (a - calculate_percentage_of (s.current_fee_configuration c).mint_fee_percentage a) / P
      = a - calculate_percentage_of (s.current_fee_configuration c).mint_fee_percentage a :=
    Nat.mul_div_cancel_left _ hP
  have hnc : ¬ ((s.pools c).collateral_amount +
      (a - calculate_percentage_of (s.current_fee_configuration c).mint_fee_percentage a) <
      (a - calculate_percentage_of (s.current_fee_configuration c).mint_fee_percentage a) -
        calculate_percentage_of (s.current_fee_configuration c).burn_fee_percentage
          (a - calculate_percentage_of (s.current_fee_configuration c).mint_fee_percentage a)) := by
    omega
  have hns : ¬ ((s.pools c).stablecoin_amount +
      P * (a - calculate_percentage_of (s.current_fee_configuration c).mint_fee_percentage a) <
      P * (a - calculate_percentage_of (s.current_fee_configuration c).mint_fee_percentage a)) := by
    omega
  have hsell := sell_collateral_ok c a 0 s P hw hp mf (Nat.zero_le _)
  rw [hsell]
  refine ⟨rfl, rfl, ?_, ?_, by omega, by omega⟩
  · simp [buy_collateral, require_collateral_in_whitelist,
      get_collateral_value_in_dollars, get_burn_transaction_fees_percentage,
      bdiv, bsub, update_pool_sc, upd_eval, hw, hp, hP.ne', hdiv, bf, hnc, hns]
  · simp [buy_collateral, require_collateral_in_whitelist,
      get_collateral_value_in_dollars, get_burn_transaction_fees_percentage,
      bdiv, bsub, update_pool_sc, upd_eval, hw, hp, hP.ne', hdiv, bf, hnc, hns]

/-- C5 counterexample: with a one-unit mint fee percentage, unit price and
payment 1, the truncated fee amount is zero, so the round trip returns
exactly the original payment although the mint fee percentage is not
zero — refuting equality only at zero percentages. -/
theorem roundtrip_equality_with_nonzero_fee :
    (sell_collateral 1 1 0 feeState).1 = .ok () ∧
    (sell_collateral 1 1 0 feeState).2.minted_to_caller = 1 ∧
    (buy_collateral 99 1 1 0 (sell_collateral 1 1 0 feeState).2).1 = .ok () ∧
    (buy_collateral 99 1 1 0 (sell_collateral 1 1 0 feeState).2).2.collateral_sent_to_caller 1 =
      feeState.collateral_sent_to_caller 1 + 1 ∧
    (feeState.current_fee_configuration 1).mint_fee_percentage ≠ 0 :=
  ⟨rfl, rfl, rfl, rfl, by decide⟩

/-- Witness for the amended C5 at the base state: zero fee percentages,
price 2.0, payment 10; the sale succeeds and the round-trip output is at
most the payment. -/
theorem sell_then_buy_roundtrip_witness :
    (sell_collateral 1 10 0 baseState).1 = .ok () ∧
    ((10 - calculate_percentage_of (baseState.current_fee_configuration 1).mint_fee_percentage 10) -
      calculate_percentage_of (baseState.current_fee_configuration 1).burn_fee_percentage
        (10 - calculate_percentage_of (baseState.current_fee_configuration 1).mint_fee_percentage 10)) ≤ 10 :=
  ⟨(sell_then_buy_roundtrip 1 10 (2 * ONE) baseState rfl rfl (by decide) (by decide)
      (by decide) (by decide)).1,
   (sell_then_buy_roundtrip 1 10 (2 * ONE) baseState rfl rfl (by decide) (by decide)
      (by decide) (by decide)).2.2.2.2.1⟩

/-- C7: against a configuration with positive available prices and a burn
fee percentage of at most one, `buy_collateral` coincides with the
claimed contract `buy_collateral_claimed` on every input — the same
failure conditions in the same order and the same success effects. -/
theorem buy_collateral_matches_claimed_contract (t : TokenId) (pa : Nat)
    (c : TokenId) (m : Nat) (s : State)
    (hprice : ∀ P, s.price c = some P → 0 < P)
    (hb : (s.current_fee_configuration c).burn_fee_percentage ≤ ONE) :
    buy_collateral t pa c m s = buy_collateral_claimed t pa c m s := by
  unfold buy_collateral buy_collateral_claimed
  by_cases ht : t = s.stablecoin_token_id
  · rw [if_pos ht, if_neg (fun hne => hne ht)]
    cases hw : s.whitelist c with
    | false =>
      simp [require_collateral_in_whitelist, hw]
    | true =>
      cases hp : s.price c with
      | none =>
        simp [require_collateral_in_whitelist, get_collateral_value_in_dollars,
          hw, hp]
      | some P =>
        have hP := hprice P hp
        have hfee := calculate_percentage_of_le (pa / P) hb
        simp only [require_collateral_in_whitelist, get_collateral_value_in_dollars,
          get_burn_transaction_fees_percentage, bdiv, bsub, update_pool_sc,
          hw, hp, hP.ne', hfee, if_true, ite_true, ite_false, if_false]
        split_ifs <;> simp_all
  · rw [if_neg ht, if_pos ht]

/-- Witness for C7 at a concrete purchase on the fee example state. -/
theorem buy_collateral_matches_claimed_contract_witness :
    buy_collateral 2 10 1 0 feeState = buy_collateral_claimed 2 10 1 0 feeState :=
  buy_collateral_matches_claimed_contract 2 10 1 0 feeState
    (fun P h => by cases Option.some.inj h; decide) (by decide)

end Stablecoin
